import Mathlib

/-!
Verification development for the process-mining dashboard front end.

Each definition is a shallow embedding of a function or state transition of
the TypeScript sources (ColumnMapper.tsx, FilterSidebar.tsx, ProcessGraph.tsx,
App.tsx, cytoscape-config.ts).  React state is modelled by explicit state
passing: an event handler becomes a function from the pre-state (plus the
event payload) to the post-state, which matches the observable behaviour of
batched React event handlers where one handler invocation yields one rendered
state.  Fallible network interaction is modelled by an explicit response
datatype.
-/

namespace Celon

/-! ## Column auto-detection heuristic (ColumnMapper.tsx, auto-detect initializer)

The heuristic lower-cases every column name and, per role, walks an ordered
pattern list; for the first pattern that has a substring match among the
lower-cased columns it assigns the first matching column (original casing)
and stops scanning patterns for that role.  `hasSub` embeds the JavaScript
`String.includes` substring test on lists of characters. -/

/-- Embeds the prefix test used by the substring scan: `pat` occurs at the
head of `hay`. -/
def startsWithChars : List Char → List Char → Bool
  | _, [] => true
  | [], _ :: _ => false
  | c :: cs, p :: ps => (p == c) && startsWithChars cs ps

/-- Embeds the JavaScript substring test `hay.includes(pat)` on character
lists: `pat` occurs contiguously somewhere in `hay`. -/
def hasSub : List Char → List Char → Bool
  | [], pat => pat.isEmpty
  | c :: t, pat => startsWithChars (c :: t) pat || hasSub t pat

/-- `columns.map((c) => c.toLowerCase())` applied to one column name. -/
def lowerChars (s : String) : List Char :=
  s.data.map Char.toLower

/-- The per-column test inside `findIndex`: the lower-cased column contains
the (already lower-case) pattern as a substring. -/
def matchesPattern (pattern col : String) : Bool :=
  hasSub (lowerChars col) pattern.data

/-- Pattern list for the case-id role, in source order. -/
def casePatterns : List String :=
  ["case_id", "caseid", "case", "id", "trace_id", "traceid"]

/-- Pattern list for the activity role, in source order. -/
def activityPatterns : List String :=
  ["activity", "event", "action", "step", "task"]

/-- Pattern list for the timestamp role, in source order. -/
def timestampPatterns : List String :=
  ["timestamp", "time", "date", "datetime", "created", "start"]

/-- `lowerColumns.findIndex((c) => c.includes(pattern))` followed by
`columns[idx]`: the first column, in the given order, whose lower-cased
name contains `pattern`. -/
def firstMatchColumn (pattern : String) (columns : List String) : Option String :=
  columns.find? (fun c => matchesPattern pattern c)

/-- The per-role detection loop: scan the patterns in order and assign the
first matching column of the first pattern that has any match (the loop
breaks after a successful assignment). -/
def detectRole (patterns columns : List String) : Option String :=
  patterns.findSome? (fun p => firstMatchColumn p columns)

/-- The whole auto-detect initializer: the three roles are resolved
independently over the same column list. -/
def autoDetect (columns : List String) : Option String × Option String × Option String :=
  (detectRole casePatterns columns,
   detectRole activityPatterns columns,
   detectRole timestampPatterns columns)

/-! ## Column mapper state and submission (ColumnMapper.tsx)

The three mapping selections are strings, with the empty string standing for
the JavaScript falsy unset value of the corresponding `useState("")` cell. -/

/-- The local state of the ColumnMapper component. -/
structure MapperState where
  caseIdColumn : String
  activityColumn : String
  timestampColumn : String
  isLoading : Bool
  error : Option String
  deriving DecidableEq

/-- `const isValid = caseIdColumn && activityColumn && timestampColumn`
(string truthiness: non-empty). -/
def mapperIsValid (m : MapperState) : Bool :=
  (m.caseIdColumn != "") && (m.activityColumn != "") && (m.timestampColumn != "")

/-- The `disabled={!isValid || isLoading}` expression on the submit button. -/
def submitDisabled (m : MapperState) : Bool :=
  !mapperIsValid m || m.isLoading

/-- The query parameters built by `handleSubmit` for the confirm-mapping
request. -/
structure SubmitParams where
  tempId : String
  caseIdColumn : String
  activityColumn : String
  timestampColumn : String
  deriving DecidableEq

/-- The synchronous head of `handleSubmit`: with `!isValid` it returns at
once (no request, state untouched); otherwise it sets loading, clears the
error and issues the request built from the current selections. -/
def handleSubmitStart (m : MapperState) (tempId : String) :
    Option SubmitParams × MapperState :=
  if mapperIsValid m then
    (some ⟨tempId, m.caseIdColumn, m.activityColumn, m.timestampColumn⟩,
     { m with isLoading := true, error := none })
  else
    (none, m)

/-- The pending upload held by FileUpload between the preview response and
mapping confirmation (`previewData`); each preview row maps a column name to
the displayed raw value. -/
structure PreviewData where
  columns : List String
  previewRows : List (List (String × String))
  rowCount : Nat
  tempId : String
  deriving DecidableEq

/-- The session statistics returned by a successful confirm-mapping request
and stored by App. -/
structure UploadStats where
  sessionId : String
  caseCount : Nat
  eventCount : Nat
  activities : List String
  deriving DecidableEq

/-- Outcome of the confirm-mapping fetch: success payload, non-ok response
with optional detail string, or a transport error. -/
inductive SubmitResponse where
  | success (stats : UploadStats)
  | httpError (detail : Option String)
  | networkError (msg : String)
  deriving DecidableEq

/-- Whether the response is a failure (non-ok or transport). -/
def submitFailed : SubmitResponse → Bool
  | .success _ => false
  | .httpError _ => true
  | .networkError _ => true

/-- The message surfaced on failure: `data.detail || "Upload failed"` for a
non-ok response, the transport error message otherwise. -/
def submitFailureMessage : SubmitResponse → Option String
  | .success _ => none
  | .httpError detail => some ((fun d => if d = "" then "Upload failed" else d)
      (detail.getD "Upload failed"))
  | .networkError msg => some msg

/-- The continuation of `handleSubmit` once the fetch resolves, paired with
the parent FileUpload reaction: on success `onComplete` fires
(`handleMappingComplete` clears `previewData` and hands the stats to App),
on failure the error is stored, loading ends, and nothing else changes.
Returns (new mapper state, surviving pending upload, created session data). -/
def handleSubmitComplete (m : MapperState) (pending : PreviewData)
    (resp : SubmitResponse) : MapperState × Option PreviewData × Option UploadStats :=
  match resp with
  | .success stats =>
      ({ m with isLoading := false, error := none }, none, some stats)
  | .httpError detail =>
      ({ m with isLoading := false,
                error := submitFailureMessage (.httpError detail) }, some pending, none)
  | .networkError msg =>
      ({ m with isLoading := false,
                error := submitFailureMessage (.networkError msg) }, some pending, none)

/-! ## Filter criteria and sidebar (FilterSidebar.tsx) -/

/-- The `FilterCriteria` payload built by the sidebar on Apply. -/
structure FilterCriteria where
  dateStart : Option String
  dateEnd : Option String
  activities : Option (List String)
  excludeActivities : Option (List String)
  deriving DecidableEq

/-- The local state of the FilterSidebar component (the excluded-activity
set is keyed by name; it is modelled as the list of its members). -/
structure FilterSidebarState where
  dateStart : String
  dateEnd : String
  excludedActivities : List String
  isOpen : Bool
  deriving DecidableEq

/-- `const hasActiveFilters = dateStart || dateEnd || excludedActivities.size > 0`. -/
def hasActiveFilters (st : FilterSidebarState) : Bool :=
  (st.dateStart != "") || (st.dateEnd != "") || (st.excludedActivities.length > 0)

/-- `toggleActivity`: toggling a present activity removes it, an absent one
adds it. -/
def toggleActivity (st : FilterSidebarState) (activity : String) : FilterSidebarState :=
  if st.excludedActivities.contains activity then
    { st with excludedActivities := st.excludedActivities.filter (fun a => a != activity) }
  else
    { st with excludedActivities := st.excludedActivities ++ [activity] }

/-- `handleApply` builds the criteria from the local state (empty string and
empty set become null fields). -/
def buildFilters (st : FilterSidebarState) : FilterCriteria :=
  { dateStart := if st.dateStart = "" then none else some st.dateStart,
    dateEnd := if st.dateEnd = "" then none else some st.dateEnd,
    activities := none,
    excludeActivities :=
      if st.excludedActivities.length > 0 then some st.excludedActivities else none }

/-- The `disabled={isLoading || !hasActiveFilters}` expression on the Apply
button. -/
def applyDisabled (st : FilterSidebarState) (isLoading : Bool) : Bool :=
  isLoading || !hasActiveFilters st

/-- The `disabled={isLoading || !hasActiveFilters}` expression on the Clear
button. -/
def clearDisabled (st : FilterSidebarState) (isLoading : Bool) : Bool :=
  isLoading || !hasActiveFilters st

/-- `App.handleClearFilters`: `setActiveFilters(null)`. -/
def handleClearFilters (_active : Option FilterCriteria) : Option FilterCriteria :=
  none

/-- `FilterSidebar.handleClear`: reset the local fields to empty and invoke
`onClearFilters`, which is wired to `App.handleClearFilters`.  Returns the
new local state and the new active criteria of App. -/
def handleClear (st : FilterSidebarState) (active : Option FilterCriteria) :
    FilterSidebarState × Option FilterCriteria :=
  ({ st with dateStart := "", dateEnd := "", excludedActivities := [] },
   handleClearFilters active)

/-! ## App state and handlers (App.tsx) -/

/-- The workflow stage of App. -/
inductive WorkflowStep where
  | upload
  | mapping
  | dashboard
  deriving DecidableEq

/-- The dashboard tab identifiers. -/
inductive TabId where
  | graph
  | metrics
  | bottlenecks
  | variants
  deriving DecidableEq

/-- The payload of a node-selection event (`{id, label, frequency}`). -/
structure NodeSelection where
  id : String
  label : String
  frequency : Option Nat
  deriving DecidableEq

/-- The top-level App state. -/
structure AppState where
  sessionId : Option String
  uploadStats : Option UploadStats
  selectedVariant : Option (List String)
  selectedNode : Option NodeSelection
  activeFilters : Option FilterCriteria
  workflowStep : WorkflowStep
  activeTab : TabId
  deriving DecidableEq

/-- `handleUploadSuccess`: one batched event handler installing the new
session and clearing selections and filters; React batches the seven
`set...` calls of one handler into a single rendered state transition, so
the handler is embedded as one function on the App state. -/
def handleUploadSuccess (s : AppState) (stats : UploadStats) : AppState :=
  { s with
    sessionId := some stats.sessionId,
    uploadStats := some stats,
    selectedVariant := none,
    selectedNode := none,
    activeFilters := none,
    workflowStep := .dashboard,
    activeTab := .graph }

/-- The element-wise comparison inside `handleVariantSelect`:
`variant.length === selectedVariant.length && variant.every((v, i) => v === selectedVariant[i])`. -/
def sameVariant (v sel : List String) : Bool :=
  (v.length == sel.length) && (v.zip sel).all (fun p => p.1 == p.2)

/-- `handleVariantSelect`: clicking a variant equal (element-wise) to the
current selection clears the selection, any other click selects the clicked
variant. -/
def handleVariantSelect (cur : Option (List String)) (v : List String) :
    Option (List String) :=
  match cur with
  | some sel => if sameVariant v sel then none else some v
  | none => some v

/-! ## Process graph rendering (ProcessGraph.tsx) -/

/-- The `data` record of one node of the discover-graph response. -/
structure GraphNodeData where
  id : String
  label : String
  frequency : Option Nat
  isStart : Bool
  isEnd : Bool
  isSpecial : Bool
  deriving DecidableEq

/-- The `data` record of one edge of the discover-graph response. -/
structure GraphEdgeData where
  source : String
  target : String
  weight : Nat
  deriving DecidableEq

/-- The discover-graph response body. -/
structure GraphData where
  nodes : List GraphNodeData
  edges : List GraphEdgeData
  deriving DecidableEq

/-- One entry of the element array handed to the Cytoscape renderer. -/
inductive GraphElement where
  | node (n : GraphNodeData)
  | edge (e : GraphEdgeData)
  deriving DecidableEq

/-- `const elements = graphData ? [...graphData.nodes, ...graphData.edges] : []`
— the whole conversion from response to renderer input; no edge is filtered
or validated. -/
def elements (graphData : Option GraphData) : List GraphElement :=
  match graphData with
  | none => []
  | some g => g.nodes.map GraphElement.node ++ g.edges.map GraphElement.edge

/-- The two inputs the spec names for the graph engine: the active session
id and the active filter criteria, as App holds them. -/
structure GraphInputs where
  sessionId : Option String
  filters : Option FilterCriteria
  deriving DecidableEq

/-- Whether the fetch effect of ProcessGraph re-runs between two renders:
its dependency array is `[sessionId]`, so it re-runs exactly when the
session id changes; the component declares no filters prop and the filter
criteria never reach the effect. -/
def processGraphEffectReruns (prev next : GraphInputs) : Bool :=
  prev.sessionId != next.sessionId

/-- The request URL of the fetch effect; it is built from the session id
alone, with no filter parameters. -/
def discoverUrl (sessionId : String) : String :=
  "http://localhost:8000/discover/" ++ sessionId

/-- The tooltip state of ProcessGraph. -/
structure TooltipState where
  visible : Bool
  x : Int
  y : Int
  data : Option NodeSelection
  deriving DecidableEq

/-- The `mouseover` handler: for every node (sentinels included) it shows
the tooltip above the rendered position with the label and
`data.frequency || 0`. -/
def mouseoverHandler (n : GraphNodeData) (renderedX renderedY : Int) : TooltipState :=
  { visible := true,
    x := renderedX,
    y := renderedY - 40,
    data := some ⟨n.id, n.label, some (n.frequency.getD 0)⟩ }

/-- The `mouseout` handler: hide the tooltip. -/
def mouseoutHandler : TooltipState :=
  { visible := false, x := 0, y := 0, data := none }

/-- The `tap` handler: raise the selection callback only when a callback is
wired and the node is not flagged `isSpecial`. -/
def tapHandler (hasCallback : Bool) (n : GraphNodeData) : Option NodeSelection :=
  if hasCallback && !n.isSpecial then
    some ⟨n.id, n.label, n.frequency⟩
  else
    none

/-! ## Visual encoding (cytoscape-config.ts)

`mapData(field, dMin, dMax, rMin, rMax)` is the Cytoscape linear mapper:
values inside the domain are interpolated linearly onto the output range and
values outside the domain are clamped to the corresponding range endpoint.
The numeric constants below are the ones of the stylesheet. -/

/-- The Cytoscape `mapData` mapper over the rationals. -/
def mapData (x dMin dMax rMin rMax : ℚ) : ℚ :=
  if x ≤ dMin then rMin
  else if dMax ≤ x then rMax
  else rMin + (x - dMin) * (rMax - rMin) / (dMax - dMin)

/-- `width: "mapData(frequency, 1, 100, 60, 120)"`. -/
def nodeWidth (frequency : ℚ) : ℚ :=
  mapData frequency 1 100 60 120

/-- `height: "mapData(frequency, 1, 100, 35, 55)"`. -/
def nodeHeight (frequency : ℚ) : ℚ :=
  mapData frequency 1 100 35 55

/-- `width: "mapData(weight, 1, 50, 1, 6)"` on edges. -/
def edgeWidth (weight : ℚ) : ℚ :=
  mapData weight 1 50 1 6

/-! ## Helper lemmas -/

/-- The element-wise comparison of `handleVariantSelect` agrees with list
equality. -/
theorem sameVariant_iff (v sel : List String) : sameVariant v sel = true ↔ v = sel := by
  induction v generalizing sel with
  | nil =>
    cases sel with
    | nil => simp [sameVariant]
    | cons b bs => simp [sameVariant]
  | cons a as ih =>
    cases sel with
    | nil => simp [sameVariant]
    | cons b bs =>
      have h := ih bs
      simp only [sameVariant, List.length_cons, List.zip_cons_cons, List.all_cons,
        Bool.and_eq_true, beq_iff_eq, add_left_inj, List.cons.injEq] at h ⊢
      tauto

/-- Inside the domain, `mapData` is the linear interpolation. -/
theorem mapData_eq_of_mem (x dMin dMax rMin rMax : ℚ) (hd : dMin < dMax)
    (h1 : dMin ≤ x) (h2 : x ≤ dMax) :
    mapData x dMin dMax rMin rMax =
      rMin + (x - dMin) * (rMax - rMin) / (dMax - dMin) := by
  unfold mapData
  rcases le_or_lt x dMin with hx | hx
  · rw [if_pos hx]
    have hxe : x = dMin := le_antisymm hx h1
    subst hxe
    rw [sub_self, zero_mul, zero_div, add_zero]
  · rw [if_neg (not_le.mpr hx)]
    rcases le_or_lt dMax x with hy | hy
    · rw [if_pos hy]
      have hye : x = dMax := le_antisymm h2 hy
      rw [hye]
      have hne : dMax - dMin ≠ 0 := sub_ne_zero.mpr (ne_of_gt hd)
      have hq : (dMax - dMin) * (rMax - rMin) / (dMax - dMin) = rMax - rMin := by
        rw [mul_comm, mul_div_assoc, div_self hne, mul_one]
      rw [hq]
      ring
    · rw [if_neg (not_le.mpr hy)]

/-- `mapData` never leaves the configured output range. -/
theorem mapData_bounds (x dMin dMax rMin rMax : ℚ) (hd : dMin < dMax)
    (hr : rMin ≤ rMax) :
    rMin ≤ mapData x dMin dMax rMin rMax ∧ mapData x dMin dMax rMin rMax ≤ rMax := by
  unfold mapData
  split
  · exact ⟨le_refl _, hr⟩
  · split
    · exact ⟨hr, le_refl _⟩
    · rename_i hna hnb
      have hx1 : dMin < x := not_le.mp hna
      have hx2 : x < dMax := not_le.mp hnb
      have hdd : (0 : ℚ) < dMax - dMin := sub_pos.mpr hd
      have hnn : (0 : ℚ) ≤ (x - dMin) * (rMax - rMin) / (dMax - dMin) :=
        div_nonneg (mul_nonneg (le_of_lt (sub_pos.mpr hx1)) (sub_nonneg.mpr hr))
          (le_of_lt hdd)
      constructor
      · linarith
      · have hle : (x - dMin) * (rMax - rMin) / (dMax - dMin) ≤ rMax - rMin := by
          rw [div_le_iff₀ hdd]
          nlinarith [sub_nonneg.mpr hr, sub_pos.mpr hx1, sub_pos.mpr hx2]
        linarith

/-! ## Claim theorems -/

/-- C2: a successful upload completion installs the new session id and, in
the same single state transition, clears the filter criteria, the selected
node and the selected variant; the handler is one function on the App
state, so no intermediate state pairing the new session id with the old
filters or old selections is ever rendered. -/
theorem c2_upload_success_atomic_reset (s : AppState) (stats : UploadStats) :
    (handleUploadSuccess s stats).sessionId = some stats.sessionId ∧
    (handleUploadSuccess s stats).uploadStats = some stats ∧
    (handleUploadSuccess s stats).activeFilters = none ∧
    (handleUploadSuccess s stats).selectedNode = none ∧
    (handleUploadSuccess s stats).selectedVariant = none :=
  ⟨rfl, rfl, rfl, rfl, rfl⟩

/-- C5 counterexample: starting from a state whose selection is already the
variant `["A"]`, selecting `["A"]` twice ends with `["A"]` selected (the
first click clears, the second re-selects), not with no selection; so
`select(V); select(V)` does not end with no selection from every state. -/
theorem c5_double_select_counterexample :
    handleVariantSelect (handleVariantSelect (some ["A"]) ["A"]) ["A"] = some ["A"] := by
  decide

/-- C5 (amended): selecting a variant element-wise equal to the current
selection clears the selection and any other selection installs the clicked
variant; consequently `select(V); select(V)` ends with no selection from
every starting state other than one already equal to `V`, where it ends
with `V` selected. -/
theorem c5_variant_toggle :
    (∀ (sel v : List String), sameVariant v sel = true →
        handleVariantSelect (some sel) v = none) ∧
    (∀ (cur : Option (List String)) (v : List String), cur ≠ some v →
        handleVariantSelect cur v = some v) ∧
    (∀ (cur : Option (List String)) (v : List String), cur ≠ some v →
        handleVariantSelect (handleVariantSelect cur v) v = none) ∧
    (∀ v : List String,
        handleVariantSelect (handleVariantSelect (some v) v) v = some v) := by
  have hset : ∀ (cur : Option (List String)) (v : List String), cur ≠ some v →
      handleVariantSelect cur v = some v := by
    intro cur v h
    cases cur with
    | none => rfl
    | some sel =>
      have hne : sameVariant v sel = false := by
        rcases Bool.eq_false_or_eq_true (sameVariant v sel) with hb | hb
        · exact absurd (congrArg some ((sameVariant_iff v sel).mp hb).symm) h
        · exact hb
      simp [handleVariantSelect, hne]
  have hclear : ∀ (sel v : List String), sameVariant v sel = true →
      handleVariantSelect (some sel) v = none := by
    intro sel v h
    simp [handleVariantSelect, h]
  refine ⟨hclear, hset, ?_, ?_⟩
  · intro cur v h
    rw [hset cur v h]
    exact hclear v v ((sameVariant_iff v v).mpr rfl)
  · intro v
    rw [hclear v v ((sameVariant_iff v v).mpr rfl)]
    rfl

/-- C5 witness: from a selection different from the clicked variant, the
double select ends with no selection. -/
theorem c5_variant_toggle_witness :
    handleVariantSelect (handleVariantSelect (some ["B"]) ["A"]) ["A"] = none :=
  c5_variant_toggle.2.2.1 (some ["B"]) ["A"] (by decide)

/-- Concrete filter criteria used to exhibit a filter-only input change. -/
def c1Filters : FilterCriteria :=
  { dateStart := none, dateEnd := none, activities := none,
    excludeActivities := some ["A"] }

/-- Graph-engine inputs before the filter change. -/
def c1Prev : GraphInputs := { sessionId := some "s1", filters := none }

/-- Graph-engine inputs after the filter change: same session id, new
filters. -/
def c1Next : GraphInputs := { sessionId := some "s1", filters := some c1Filters }

/-- C1: evaluating the fetch effect of ProcessGraph at an input change that
alters only the filter criteria: the filters differ, the session id does
not, and the effect does not re-run (its dependency array is `[sessionId]`
and the component has no filters prop), so no refetch reflecting the new
filters occurs — contradicting the claim. -/
theorem c1_filter_change_no_refetch :
    processGraphEffectReruns c1Prev c1Next = false ∧
    (c1Prev.filters == c1Next.filters) = false ∧
    (c1Prev.sessionId == c1Next.sessionId) = true := by
  decide

/-- The sole node of the dangling-edge response. -/
def c4Node : GraphNodeData :=
  { id := "A", label := "A", frequency := some 5,
    isStart := false, isEnd := false, isSpecial := false }

/-- An edge whose target id occurs in no node of the response. -/
def c4Edge : GraphEdgeData := { source := "A", target := "B", weight := 3 }

/-- A discover-graph response violating the edge-endpoint invariant. -/
def c4Graph : GraphData := { nodes := [c4Node], edges := [c4Edge] }

/-- C4: the element construction of ProcessGraph concatenates the response
nodes and edges unchanged, so the edge whose target `"B"` matches no node
id is passed to the renderer rather than rejected or ignored — the
defensive guard the claim describes does not exist. -/
theorem c4_dangling_edge_passed_to_renderer :
    elements (some c4Graph) =
      [GraphElement.node c4Node, GraphElement.edge c4Edge] ∧
    c4Graph.nodes.all (fun n => n.id != c4Edge.target) = true := by
  decide

/-- C3: per role the heuristic scans the pattern list in order and assigns
the first column (in document order) matching the first pattern that has
any match, leaving later patterns unscanned; a column matches a pattern
when its lower-cased name contains the pattern as a substring; and on the
columns `["CaseID", "Activity", "Time"]` it proposes exactly
`caseIdColumn = "CaseID"`, `activityColumn = "Activity"`,
`timestampColumn = "Time"`. -/
theorem c3_auto_detect_first_match :
    (∀ (patterns columns : List String) (c : String),
        detectRole patterns columns = some c ↔
          ∃ ps1 p ps2, patterns = ps1 ++ p :: ps2 ∧
            firstMatchColumn p columns = some c ∧
            ∀ q ∈ ps1, firstMatchColumn q columns = none) ∧
    (∀ (p : String) (columns : List String) (c : String),
        firstMatchColumn p columns = some c ↔
          matchesPattern p c = true ∧
          ∃ cs1 cs2, columns = cs1 ++ c :: cs2 ∧
            ∀ d ∈ cs1, matchesPattern p d = false) ∧
    autoDetect ["CaseID", "Activity", "Time"] =
      (some "CaseID", some "Activity", some "Time") := by
  refine ⟨?_, ?_, by decide⟩
  · intro patterns columns c
    exact List.findSome?_eq_some_iff
  · intro p columns c
    unfold firstMatchColumn
    rw [List.find?_eq_some]
    simp [Bool.not_eq_true']

/-- C3 witness: the concrete scenario, obtained from the claim theorem. -/
theorem c3_auto_detect_witness :
    autoDetect ["CaseID", "Activity", "Time"] =
      (some "CaseID", some "Activity", some "Time") :=
  c3_auto_detect_first_match.2.2

/-- C6: when any of the three mapping selections is unset the submit button
is disabled and invoking the submit handler issues no request and leaves the
state untouched; a request is possible exactly when all three selections
are set. -/
theorem c6_submit_gate :
    (∀ (m : MapperState) (tempId : String),
        m.caseIdColumn = "" ∨ m.activityColumn = "" ∨ m.timestampColumn = "" →
        submitDisabled m = true ∧ handleSubmitStart m tempId = (none, m)) ∧
    (∀ (m : MapperState) (tempId : String),
        (handleSubmitStart m tempId).1.isSome = true ↔
          m.caseIdColumn ≠ "" ∧ m.activityColumn ≠ "" ∧ m.timestampColumn ≠ "") := by
  have hiff : ∀ m : MapperState, mapperIsValid m = true ↔
      m.caseIdColumn ≠ "" ∧ m.activityColumn ≠ "" ∧ m.timestampColumn ≠ "" := by
    intro m
    simp [mapperIsValid, Bool.and_eq_true, bne_iff_ne, and_assoc]
  constructor
  · intro m tempId h
    have hv : mapperIsValid m = false := by
      rcases Bool.eq_false_or_eq_true (mapperIsValid m) with hb | hb
      · rcases h with h | h | h <;>
          · rcases (hiff m).mp hb with ⟨h1, h2, h3⟩
            first
              | exact absurd h h1
              | exact absurd h h2
              | exact absurd h h3
      · exact hb
    constructor
    · simp [submitDisabled, hv]
    · simp [handleSubmitStart, hv]
  · intro m tempId
    rcases Bool.eq_false_or_eq_true (mapperIsValid m) with hv | hv
    · simp [handleSubmitStart, hv, ← hiff m]
    · simp [handleSubmitStart, hv, ← hiff m]

/-- A mapper state with the case-id selection unset. -/
def c6State : MapperState :=
  { caseIdColumn := "", activityColumn := "act", timestampColumn := "ts",
    isLoading := false, error := none }

/-- C6 witness: with the case-id selection unset, the button is disabled and
the handler is a no-op. -/
theorem c6_submit_gate_witness :
    submitDisabled c6State = true ∧ handleSubmitStart c6State "tmp-1" = (none, c6State) :=
  c6_submit_gate.1 c6State "tmp-1" (Or.inl rfl)

/-- C7: a failed mapping submission (non-ok response or transport error)
leaves the three column selections untouched, preserves the pending upload
(so the workflow stays in the mapping step), creates no session, surfaces
an error message, and ends the loading state. -/
theorem c7_failed_submission_preserves_state (m : MapperState) (pending : PreviewData)
    (resp : SubmitResponse) (h : submitFailed resp = true) :
    (handleSubmitComplete m pending resp).1.caseIdColumn = m.caseIdColumn ∧
    (handleSubmitComplete m pending resp).1.activityColumn = m.activityColumn ∧
    (handleSubmitComplete m pending resp).1.timestampColumn = m.timestampColumn ∧
    (handleSubmitComplete m pending resp).2.1 = some pending ∧
    (handleSubmitComplete m pending resp).2.2 = none ∧
    (handleSubmitComplete m pending resp).1.error = submitFailureMessage resp ∧
    ((handleSubmitComplete m pending resp).1.error).isSome = true ∧
    (handleSubmitComplete m pending resp).1.isLoading = false := by
  cases resp with
  | success stats => simp [submitFailed] at h
  | httpError detail =>
    refine ⟨rfl, rfl, rfl, rfl, rfl, rfl, ?_, rfl⟩
    simp [handleSubmitComplete, submitFailureMessage]
  | networkError msg =>
    exact ⟨rfl, rfl, rfl, rfl, rfl, rfl, rfl, rfl⟩

/-- A complete mapper state awaiting the submission response. -/
def c7Mapper : MapperState :=
  { caseIdColumn := "c", activityColumn := "a", timestampColumn := "t",
    isLoading := true, error := none }

/-- The pending upload at the moment of submission. -/
def c7Pending : PreviewData :=
  { columns := ["c", "a", "t"], previewRows := [], rowCount := 0, tempId := "tmp-1" }

/-- C7 witness: a non-ok response with a detail message preserves the
selections and the pending upload and creates no session. -/
theorem c7_failed_submission_witness :
    (handleSubmitComplete c7Mapper c7Pending (.httpError (some "bad mapping"))).2.1
        = some c7Pending ∧
    (handleSubmitComplete c7Mapper c7Pending (.httpError (some "bad mapping"))).2.2
        = none ∧
    (handleSubmitComplete c7Mapper c7Pending
        (.httpError (some "bad mapping"))).1.caseIdColumn = c7Mapper.caseIdColumn := by
  have h := c7_failed_submission_preserves_state c7Mapper c7Pending
    (.httpError (some "bad mapping")) rfl
  exact ⟨h.2.2.2.1, h.2.2.2.2.1, h.1⟩

/-- C8: node width and height are the linear interpolation of the frequency
over the fixed domain `[1, 100]` onto the pixel ranges `[60, 120]` and
`[35, 55]` (the width range spans 60 pixels, wider than the 20-pixel height
range), frequencies outside the domain are clamped to the corresponding
range endpoint, and the rendered sizes never leave the configured pixel
bounds. -/
theorem c8_node_size_encoding :
    (∀ f : ℚ, 1 ≤ f → f ≤ 100 →
        nodeWidth f = 60 + (f - 1) * (120 - 60) / (100 - 1) ∧
        nodeHeight f = 35 + (f - 1) * (55 - 35) / (100 - 1)) ∧
    (∀ f : ℚ, f ≤ 1 → nodeWidth f = 60 ∧ nodeHeight f = 35) ∧
    (∀ f : ℚ, 100 ≤ f → nodeWidth f = 120 ∧ nodeHeight f = 55) ∧
    (∀ f : ℚ, 60 ≤ nodeWidth f ∧ nodeWidth f ≤ 120 ∧
        35 ≤ nodeHeight f ∧ nodeHeight f ≤ 55) ∧
    ((120 : ℚ) - 60 > 55 - 35) := by
  refine ⟨?_, ?_, ?_, ?_, by norm_num⟩
  · intro f h1 h2
    exact ⟨mapData_eq_of_mem f 1 100 60 120 (by norm_num) h1 h2,
           mapData_eq_of_mem f 1 100 35 55 (by norm_num) h1 h2⟩
  · intro f h
    constructor <;> simp [nodeWidth, nodeHeight, mapData, h]
  · intro f h
    have h1 : ¬ f ≤ 1 := by linarith
    constructor <;> simp [nodeWidth, nodeHeight, mapData, h, h1]
  · intro f
    have hw := mapData_bounds f 1 100 60 120 (by norm_num) (by norm_num)
    have hh := mapData_bounds f 1 100 35 55 (by norm_num) (by norm_num)
    exact ⟨hw.1, hw.2, hh.1, hh.2⟩

/-- C8 witness: at the domain endpoints the sizes are the range endpoints,
and a frequency above the domain is clamped. -/
theorem c8_node_size_witness :
    (nodeWidth 1 = 60 + (1 - 1) * (120 - 60) / (100 - 1) ∧
     nodeHeight 1 = 35 + (1 - 1) * (55 - 35) / (100 - 1)) ∧
    (nodeWidth 250 = 120 ∧ nodeHeight 250 = 55) :=
  ⟨c8_node_size_encoding.1 1 (by norm_num) (by norm_num),
   c8_node_size_encoding.2.2.1 250 (by norm_num)⟩

/-- C9: invoking clear when no filter dimension is active (empty start
date, empty end date, empty exclusion set) leaves both the sidebar state
and the applied criteria unchanged at no-filter, and in that state the
Apply and Clear buttons are disabled whatever the loading flag. -/
theorem c9_clear_idempotent_disabled (st : FilterSidebarState)
    (active : Option FilterCriteria) (isLoading : Bool)
    (h1 : st.dateStart = "") (h2 : st.dateEnd = "")
    (h3 : st.excludedActivities = []) (h4 : active = none) :
    handleClear st active = (st, active) ∧
    applyDisabled st isLoading = true ∧
    clearDisabled st isLoading = true := by
  obtain ⟨ds, de, ea, io⟩ := st
  simp only at h1 h2 h3
  subst h1 h2 h3 h4
  refine ⟨rfl, ?_, ?_⟩ <;>
    simp [applyDisabled, clearDisabled, hasActiveFilters]

/-- A sidebar state with no active filter dimension. -/
def c9Sidebar : FilterSidebarState :=
  { dateStart := "", dateEnd := "", excludedActivities := [], isOpen := true }

/-- C9 witness: clearing from the empty state changes nothing and both
buttons are disabled. -/
theorem c9_clear_witness :
    handleClear c9Sidebar none = (c9Sidebar, none) ∧
    applyDisabled c9Sidebar false = true ∧
    clearDisabled c9Sidebar false = true :=
  c9_clear_idempotent_disabled c9Sidebar none false rfl rfl rfl rfl

/-- C10: a mouseover on any node — sentinel or not — makes the tooltip
visible with the node label and its frequency defaulted to 0 when absent,
while the tap handler raises a selection event only for nodes without the
`isSpecial` flag. -/
theorem c10_hover_vs_tap :
    (∀ (n : GraphNodeData) (rx ry : Int),
        (mouseoverHandler n rx ry).visible = true ∧
        (mouseoverHandler n rx ry).data =
          some ⟨n.id, n.label, some (n.frequency.getD 0)⟩) ∧
    (∀ (hasCallback : Bool) (n : GraphNodeData) (e : NodeSelection),
        tapHandler hasCallback n = some e → n.isSpecial = false) ∧
    (∀ n : GraphNodeData, n.isSpecial = true → tapHandler true n = none) := by
  refine ⟨fun n rx ry => ⟨rfl, rfl⟩, ?_, ?_⟩
  · intro hasCallback n e h
    rcases Bool.eq_false_or_eq_true n.isSpecial with hs | hs
    · simp [tapHandler, hs] at h
    · exact hs
  · intro n h
    simp [tapHandler, h]

/-- The synthetic start sentinel node. -/
def sentinelStartNode : GraphNodeData :=
  { id := "__start__", label := "Start", frequency := none,
    isStart := false, isEnd := false, isSpecial := true }

/-- C10 witness: the sentinel start node shows a tooltip with frequency 0 on
hover but raises no selection on tap even with a callback wired. -/
theorem c10_hover_vs_tap_witness :
    ((mouseoverHandler sentinelStartNode 10 50).visible = true ∧
     (mouseoverHandler sentinelStartNode 10 50).data =
       some ⟨"__start__", "Start", some 0⟩) ∧
    tapHandler true sentinelStartNode = none :=
  ⟨c10_hover_vs_tap.1 sentinelStartNode 10 50,
   c10_hover_vs_tap.2.2 sentinelStartNode rfl⟩

end Celon
